import Mathlib

/-!
Shallow embedding of the LocustWMS layer-catalog builder
(`LocustMapServerImporter.py` and `Utils.py`).

Raster datasets, the filesystem and the GDAL engine are modelled by an
explicit environment (`Env`); the mutable pieces of process state (the
pushed GDAL error handler, files removed and created on disk) are threaded
through an explicit `PState`.  Python exceptions are modelled with
`Option`/`Except`; Python floats are modelled as exact rationals.
-/

/-- A 6-coefficient affine geotransform, `gt[0] .. gt[5]` of the source. -/
structure GeoTransform where
  g0 : ℚ
  g1 : ℚ
  g2 : ℚ
  g3 : ℚ
  g4 : ℚ
  g5 : ℚ
deriving DecidableEq

/-- An opened GDAL dataset: the path it references, the authority code of
its projection (`none` when the projection carries no parsable authority
code), pixel dimensions and geotransform. -/
structure Raster where
  path : String
  epsg : Option Int
  xSize : Nat
  ySize : Nat
  gt : GeoTransform
deriving DecidableEq

/-- Utils.getGDALRasterExtents: bounds of a GDAL raster,
`[gt[0], gt[3] + gt[4]*xSize + gt[5]*ySize, gt[0] + gt[1]*xSize + gt[2]*ySize, gt[3]]`. -/
def getGDALRasterExtents (inData : Raster) : List ℚ :=
  [inData.gt.g0,
   inData.gt.g3 + inData.gt.g4 * inData.xSize + inData.gt.g5 * inData.ySize,
   inData.gt.g0 + inData.gt.g1 * inData.xSize + inData.gt.g2 * inData.ySize,
   inData.gt.g3]

/-- A GDAL error record `(errorLevel, errorNo, errorMsg)` as handed to the
pushed error handler. -/
structure GdalErr where
  level : Int
  num : Int
  msg : String
deriving DecidableEq

namespace GDALErrorHandler

/-- Utils.GDALErrorHandler.handler: stores the error as `last_error`.
The state is the `last_error` field of the handler (`none` initially). -/
def handler (_st : Option GdalErr) (e : GdalErr) : Option GdalErr :=
  some e

/-- Utils.GDALErrorHandler.capture: if `last_error` is set, clears it and
raises a RuntimeError.  Returns the new `last_error` state together with
whether a RuntimeError was raised. -/
def capture (st : Option GdalErr) : Option GdalErr × Bool :=
  match st with
  | some _ => (none, true)
  | none => (st, false)

end GDALErrorHandler

/-- Whether the character list `l` starts with `n` (helper for the Python
`in` and `endswith` string tests). -/
def startsWithList : List Char → List Char → Bool
  | _, [] => true
  | [], _ :: _ => false
  | c :: cs, n :: ns => c == n && startsWithList cs ns

/-- Whether `needle` occurs as a contiguous run inside `hay` (the Python test `needle in hay` on strings). -/
def containsList (needle : List Char) : List Char → Bool
  | [] => needle.isEmpty
  | c :: cs => startsWithList (c :: cs) needle || containsList needle cs

/-- Python `sub in s` for strings. -/
def strContains (s sub : String) : Bool :=
  containsList sub.data s.data

/-- Python `s.endswith(suffix)`. -/
def strEndsWith (s suffix : String) : Bool :=
  startsWithList s.data.reverse suffix.data.reverse

/-- Numeric value of a list of decimal digit characters. -/
def natOfDigits (cs : List Char) : Nat :=
  cs.foldl (fun a c => a * 10 + (c.toNat - 48)) 0

/-- Gregorian leap-year test. -/
def isLeapYear (y : Nat) : Bool :=
  (y % 4 == 0 && y % 100 != 0) || (y % 400 == 0)

/-- Number of days of month `m` of year `y`. -/
def daysInMonth (y m : Nat) : Nat :=
  if m == 2 then (if isLeapYear y then 29 else 28)
  else if m == 4 || m == 6 || m == 9 || m == 11 then 30
  else 31

/-- Python `datetime.strptime(s, "%Y%m%d").isoformat()[0:10]`: strict
`YYYYMMDD` parse of a calendar date, rendered as `YYYY-MM-DD`; `none`
models the ValueError raised on a non-matching name. -/
def parseYYYYMMDD (s : String) : Option String :=
  if s.data.length == 8 && s.data.all Char.isDigit then
    let y := natOfDigits (s.data.take 4)
    let m := natOfDigits ((s.data.drop 4).take 2)
    let d := natOfDigits (s.data.drop 6)
    if 1 ≤ y && 1 ≤ m && m ≤ 12 && 1 ≤ d && d ≤ daysInMonth y m then
      some (s.take 4 ++ "-" ++ (s.drop 4).take 2 ++ "-" ++ s.drop 6)
    else none
  else none

example : parseYYYYMMDD "20230115" = some "2023-01-15" := by decide

example : parseYYYYMMDD "2023AB01" = none := by decide

example : parseYYYYMMDD "20230230" = none := by decide

/-- Result of a `gdal.Open` call: `ok` is the opened dataset (`none` when
the open raises), `rec` an error recorded through the pushed error handler
during the call (`none` when nothing is recorded). -/
structure OpenRes where
  ok : Option Raster
  recd : Option GdalErr
deriving DecidableEq

/-- The external world seen by `process`: the filesystem (`isDir`,
`isFile`, `listDir`, all on path strings; relative names are resolved
against the process working directory, so a bare name is its own path) and
the GDAL engine (`openDs` for `gdal.Open`, `warp` giving the dataset
obtained by re-opening the output of `gdal.Warp`, `warpRec` an error the
warp records through the pushed handler). -/
structure Env where
  isDir : String → Bool
  isFile : String → Bool
  listDir : String → List String
  openDs : String → OpenRes
  warp : String → Int → String → Raster
  warpRec : String → Option GdalErr

/-- Mutable process state: the `last_error` of the pushed error handler, plus
the overview files removed and the files created on disk so far. -/
structure PState where
  hstate : Option GdalErr
  removed : List String
  created : List String
deriving DecidableEq

/-- State at the start of `process`: fresh `GDALErrorHandler()`, nothing
removed or created yet. -/
def initState : PState :=
  { hstate := none, removed := [], created := [] }

/-- Recording an error through the pushed handler (`none` = the engine
call recorded nothing, so `last_error` is unchanged). -/
def applyRec (h : Option GdalErr) (rec : Option GdalErr) : Option GdalErr :=
  match rec with
  | some e => GDALErrorHandler.handler h e
  | none => h

/-- Whether a path currently holds a file, given the base filesystem and
the removals/creations performed so far. -/
def fileExists (env : Env) (st : PState) (p : String) : Bool :=
  (env.isFile p || st.created.contains p) && !st.removed.contains p

/-- LocustMapServerImporter._warpToEPSG.  Returns the updated state and
either `.error ()` (an exception escaping the method: the authority
code of the projection fails to parse as an int), or `.ok none` (the open failed;
the method printed a message and returned `None`), or `.ok (some ds)`. -/
def warpToEPSG (env : Env) (dstEPSG : Int) (inFile datePath fl : String)
    (st : PState) : PState × Except Unit (Option Raster) :=
  let r := env.openDs inFile
  let st1 : PState := { st with hstate := applyRec st.hstate r.recd }
  match r.ok with
  | none => (st1, .ok none)
  | some inDt =>
    match inDt.epsg with
    | none => (st1, .error ())
    | some flEPSG =>
      if flEPSG ≠ dstEPSG then
        let dstFile := datePath ++ "/" ++ toString dstEPSG ++ "_mapserver_" ++ fl
        let st2 : PState :=
          { st1 with
            created := dstFile :: st1.created
            hstate := applyRec st1.hstate (env.warpRec inFile) }
        (st2, .ok (some (env.warp inFile dstEPSG dstFile)))
      else (st1, .ok (some inDt))

/-- The file-selection test of the date-directory loop
(`if os.path.isdir(fl) or fl.endswith("ovr") or "RGB" not in fl: continue`).
Note the `isdir` test is applied to the bare name `fl`, i.e. to a path
relative to the working directory, not to `datePath/fl`. -/
def selectFile (env : Env) (fl : String) : Bool :=
  !(env.isDir fl) && !(strEndsWith fl "ovr") && strContains fl "RGB"

/-- The overview-validation block: if the `.ovr` file exists, open it and
run `errorHandler.capture()`; if the open raises or the capture raises,
the `except` branch removes the overview. -/
def validateOverview (env : Env) (overview : String) (st : PState) : PState :=
  if fileExists env st overview then
    let r := env.openDs overview
    let h1 := applyRec st.hstate r.recd
    match r.ok with
    | none => { st with hstate := h1, removed := overview :: st.removed }
    | some _ =>
      let c := GDALErrorHandler.capture h1
      if c.2 then { st with hstate := c.1, removed := overview :: st.removed }
      else { st with hstate := c.1 }
  else st

/-- The catalog entry of one raster (MapServer.LayerInfo as built by
`process`). -/
structure LayerInfo where
  relPath : String
  layerName : String
  spatialRef : String
  xSize : Nat
  ySize : Nat
  extent : List ℚ
  date : String
deriving DecidableEq

/-- os.path.relpath for a path lying strictly under `base`. -/
def relpathStr (p base : String) : String :=
  p.drop (base.length + 1)

/-- Characters before the first `.` (helper for Python `fl.split(".")[0]`). -/
def takeUntilDot : List Char → List Char
  | [] => []
  | c :: cs => if c == '.' then [] else c :: takeUntilDot cs

/-- Python `fl.split(".")[0]`: the base name up to the first dot. -/
def baseNameNoExt (fl : String) : String :=
  ⟨takeUntilDot fl.data⟩

/-- The LayerInfo constructed at the append site of `process`. -/
def mkLayer (dstEPSG : Int) (regionPath inFile fl : String) (dt : Raster)
    (iso : String) : LayerInfo :=
  { relPath := relpathStr inFile regionPath
    layerName := baseNameNoExt fl
    spatialRef := "EPSG:" ++ toString dstEPSG
    xSize := dt.xSize
    ySize := dt.ySize
    extent := getGDALRasterExtents dt
    date := iso }

/-- The body of the per-file `try` block (lines 104-139 of
LocustMapServerImporter.py) with its catch-all `except`: returns the
updated state and the descriptor appended to `layerList`, or `none` when
an exception was caught (open returned `None` and an attribute was read
from it, or the date failed to parse). -/
def processFile (env : Env) (dstEPSG : Int)
    (regionPath datePath date fl : String) (st : PState) :
    PState × Option LayerInfo :=
  let inFile := datePath ++ "/" ++ fl
  match warpToEPSG env dstEPSG inFile datePath fl st with
  | (st1, .error _) => (st1, none)
  | (st1, .ok odt) =>
    let overview := inFile ++ ".ovr"
    let st2 := validateOverview env overview st1
    if fileExists env st2 overview then
      match odt, parseYYYYMMDD date with
      | some dt, some iso =>
        (st2, some (mkLayer dstEPSG regionPath inFile fl dt iso))
      | _, _ => (st2, none)
    else
      match odt with
      | none => (st2, none)
      | some dt =>
        let st3 : PState := { st2 with created := (dt.path ++ ".ovr") :: st2.created }
        match parseYYYYMMDD date with
        | some iso => (st3, some (mkLayer dstEPSG regionPath inFile fl dt iso))
        | none => (st3, none)

/-- The `for fl in os.listdir(datePath)` loop: selected files are
processed in order, each successful descriptor appended to the list. -/
def processFiles (env : Env) (dstEPSG : Int) (regionPath datePath date : String)
    (st : PState) : List String → PState × List LayerInfo
  | [] => (st, [])
  | fl :: rest =>
    if selectFile env fl then
      let p := processFile env dstEPSG regionPath datePath date fl st
      let r := processFiles env dstEPSG regionPath datePath date p.1 rest
      (r.1, p.2.toList ++ r.2)
    else processFiles env dstEPSG regionPath datePath date st rest

/-- The `for date in os.listdir(regionPath)` loop: skips the `archive`
sentinel and non-directories, then walks the files of the date directory. -/
def processDates (env : Env) (dstEPSG : Int) (regionPath : String)
    (st : PState) : List String → PState × List LayerInfo
  | [] => (st, [])
  | d :: ds =>
    if d != "archive" && env.isDir (regionPath ++ "/" ++ d) then
      let datePath := regionPath ++ "/" ++ d
      let p := processFiles env dstEPSG regionPath datePath d st (env.listDir datePath)
      let r := processDates env dstEPSG regionPath p.1 ds
      (r.1, p.2 ++ r.2)
    else processDates env dstEPSG regionPath st ds


/-- Lexicographic code-point comparison of character lists: the Python
order `<=` on strings restricted to their character sequences. -/
def leChars : List Char → List Char → Bool
  | [], _ => true
  | _ :: _, [] => false
  | a :: as, b :: bs =>
    if a.toNat < b.toNat then true
    else if b.toNat < a.toNat then false
    else leChars as bs

/-- Python `s <= t` on strings (lexicographic by code point). -/
def strLe (s t : String) : Bool :=
  leChars s.data t.data

theorem leChars_cons_iff {x y : Char} {xs ys : List Char} :
    leChars (x :: xs) (y :: ys) = true ↔
      x.toNat < y.toNat ∨ (x.toNat = y.toNat ∧ leChars xs ys = true) := by
  simp only [leChars]
  split_ifs with h1 h2
  · simp [h1]
  · constructor
    · intro h
      exact absurd h (by simp)
    · rintro (h | ⟨he, _⟩)
      · exact absurd h h1
      · exact absurd (he ▸ h2) (Nat.lt_irrefl _)
  · have he : x.toNat = y.toNat :=
      Nat.le_antisymm (Nat.not_lt.mp h2) (Nat.not_lt.mp h1)
    simp [h1, he]

theorem leChars_refl (s : List Char) : leChars s s = true := by
  induction s with
  | nil => rfl
  | cons a as ih => simp [leChars_cons_iff, ih]

theorem leChars_total (a b : List Char) :
    leChars a b = true ∨ leChars b a = true := by
  induction a generalizing b with
  | nil => left; rfl
  | cons x xs ih =>
    cases b with
    | nil => right; rfl
    | cons y ys =>
      rcases Nat.lt_trichotomy x.toNat y.toNat with h | h | h
      · left; simp [leChars_cons_iff, h]
      · rcases ih ys with h' | h'
        · left; simp [leChars_cons_iff, h, h']
        · right; simp [leChars_cons_iff, h.symm, h']
      · right; simp [leChars_cons_iff, h]

theorem leChars_trans : ∀ {a b c : List Char},
    leChars a b = true → leChars b c = true → leChars a c = true
  | [], _, _, _, _ => rfl
  | _ :: _, [], _, h1, _ => by simp [leChars] at h1
  | _ :: _, _ :: _, [], _, h2 => by simp [leChars] at h2
  | x :: xs, y :: ys, z :: zs, h1, h2 => by
    rw [leChars_cons_iff] at h1 h2 ⊢
    rcases h1 with h1 | ⟨h1e, h1r⟩ <;> rcases h2 with h2 | ⟨h2e, h2r⟩
    · exact Or.inl (h1.trans h2)
    · exact Or.inl (h2e ▸ h1)
    · exact Or.inl (h1e ▸ h2)
    · exact Or.inr ⟨h1e.trans h2e, leChars_trans h1r h2r⟩

/-- The sort key order of `layerList.sort(key=lambda x: x.date, reverse=True)`:
`x` may be placed before `y` when `y.date <= x.date` (descending by date,
ties keep their original relative order because the Python sort is stable). -/
def dateGE (x y : LayerInfo) : Prop :=
  strLe y.date x.date = true

instance : DecidableRel dateGE :=
  fun x y => inferInstanceAs (Decidable (strLe y.date x.date = true))

instance : IsTotal LayerInfo dateGE :=
  ⟨fun x y => (leChars_total x.date.data y.date.data).elim Or.inr Or.inl⟩

instance : IsTrans LayerInfo dateGE :=
  ⟨fun _ _ _ hab hbc => leChars_trans hbc hab⟩

/-- Equal dates are comparable both ways (used for stability). -/
theorem dateGE_of_date_eq {x y : LayerInfo} (h : x.date = y.date) : dateGE x y := by
  unfold dateGE strLe
  rw [h]
  exact leChars_refl y.date.data

/-- layerList.sort(key=lambda x: x.date, reverse=True): a stable sort by
date descending, realised as insertion sort. -/
def sortByDateDesc (l : List LayerInfo) : List LayerInfo :=
  List.insertionSort dateGE l

/-- The `while not stop` walk of lines 144-151: tag the entries whose date
equals `latest`, stop at the first entry whose date differs; indexing past
the end (every remaining entry matched) raises an IndexError, modelled as
`.error ()`. -/
def tagRun (latest : String) : List LayerInfo → Except Unit (List LayerInfo)
  | [] => .error ()
  | x :: xs =>
    if x.date = latest then
      (tagRun latest xs).map
        (fun r => { x with layerName := x.layerName ++ "_LATEST" } :: r)
    else .ok (x :: xs)

/-- Lines 141-151 of `process`: sort the catalog by date descending, read
`layerList[0].date` (IndexError on an empty catalog) and run the tagging
walk. -/
def tagLatest (l : List LayerInfo) : Except Unit (List LayerInfo) :=
  let s := sortByDateDesc l
  match s with
  | [] => .error ()
  | x :: _ => tagRun x.date s

/-- The per-region body of `process` (lines 85-160): build the regional
catalog, then sort and tag it.  `.ok` carries the catalog handed to the
MapServer exporter; `.error` is an exception escaping the region body. -/
def processRegion (env : Env) (dstEPSG : Int) (rootDir region : String)
    (st : PState) : PState × Except Unit (List LayerInfo) :=
  let regionPath := rootDir ++ "/" ++ region
  let p := processDates env dstEPSG regionPath st (env.listDir regionPath)
  (p.1, tagLatest p.2)

/-- The `for region in regions` loop: regions are processed in order; an
exception escaping a region body is caught nowhere, so it aborts the loop
(the Bool result records whether the loop aborted). -/
def processAllGo (env : Env) (dstEPSG : Int) (rootDir : String) :
    List String → PState → List (String × List LayerInfo) →
    List (String × List LayerInfo) × Bool
  | [], _, acc => (acc.reverse, false)
  | r :: rs, st, acc =>
    match processRegion env dstEPSG rootDir r st with
    | (st1, .ok tagged) => processAllGo env dstEPSG rootDir rs st1 ((r, tagged) :: acc)
    | (_, .error _) => (acc.reverse, true)

/-- LocustMapServerImporter.process: list the region directories under the
root and process each in turn; returns the catalogs handed to the exporter
and whether an uncaught exception aborted the run. -/
def processAll (env : Env) (dstEPSG : Int) (rootDir : String) :
    List (String × List LayerInfo) × Bool :=
  let regions := (env.listDir rootDir).filter (fun f => env.isDir (rootDir ++ "/" ++ f))
  processAllGo env dstEPSG rootDir regions initState []

/-- The `main` function: `assert len(sys.argv) < 3, "usage: ..."`, then
`LocustMapServerImporter(sys.argv[1], sys.argv[2])` and `process()` with
its default destination EPSG 4326.  `.ok` carries the root directory, the
URL, and the destination EPSG used. -/
def mainProg (argv : List String) : Except String (String × String × Int) :=
  if argv.length < 3 then
    match argv.get? 1, argv.get? 2 with
    | some a, some b => .ok (a, b, 4326)
    | _, _ => .error "IndexError"
  else .error "usage: python LocustMapServerImporter.py root_dir root_wms_url"

/-! ### Concrete instances used by witnesses and counterexamples -/

/-- An axis-aligned unit geotransform with origin (0, 0). -/
def gtUnit : GeoTransform := ⟨0, 1, 0, 0, 0, -1⟩

/-- A 10 x 8 raster in EPSG:4326 at path `p`. -/
def rasterAt (p : String) : Raster :=
  { path := p, epsg := some 4326, xSize := 10, ySize := 8, gt := gtUnit }

/-- A world with one region `regA` holding a malformed date directory
`2023AB01` next to two well-formed ones, each with one RGB raster already
in EPSG:4326 and no overview files on disk. -/
def envC2 : Env :=
  { isDir := fun p =>
      p == "root/regA" || p == "root/regA/2023AB01" ||
      p == "root/regA/20230115" || p == "root/regA/20230101"
    isFile := fun _ => false
    listDir := fun p =>
      if p == "root" then ["regA"]
      else if p == "root/regA" then ["2023AB01", "20230115", "20230101"]
      else if p == "root/regA/2023AB01" then ["a_RGB.tif"]
      else if p == "root/regA/20230115" then ["b_RGB.tif"]
      else if p == "root/regA/20230101" then ["c_RGB.tif"]
      else []
    openDs := fun p =>
      if p == "root/regA/2023AB01/a_RGB.tif" || p == "root/regA/20230115/b_RGB.tif" ||
         p == "root/regA/20230101/c_RGB.tif" then
        { ok := some (rasterAt p), recd := none }
      else { ok := none, recd := none }
    warp := fun _ _ q => rasterAt q
    warpRec := fun _ => none }

/-- A world with two sibling regions: `regA` is empty (it yields zero
layer descriptors) and `regB` holds a well-formed date directory with one
RGB raster. -/
def envC3 : Env :=
  { isDir := fun p =>
      p == "root3/regA" || p == "root3/regB" || p == "root3/regB/20230101"
    isFile := fun _ => false
    listDir := fun p =>
      if p == "root3" then ["regA", "regB"]
      else if p == "root3/regB" then ["20230101"]
      else if p == "root3/regB/20230101" then ["d_RGB.tif"]
      else []
    openDs := fun p =>
      if p == "root3/regB/20230101/d_RGB.tif" then
        { ok := some (rasterAt p), recd := none }
      else { ok := none, recd := none }
    warp := fun _ _ q => rasterAt q
    warpRec := fun _ => none }

/-- A world where open succeeds on one raster whose authority code already
equals the destination code. -/
def envC5 : Env :=
  { isDir := fun _ => false
    isFile := fun _ => false
    listDir := fun _ => []
    openDs := fun p =>
      if p == "d5/f_RGB.tif" then { ok := some (rasterAt p), recd := none }
      else { ok := none, recd := none }
    warp := fun _ _ q => rasterAt q
    warpRec := fun _ => none }

/-- A world where `sub_RGB` is a sub-directory of the date directory
`root6/regA/20230101`, while no entry named `sub_RGB` exists relative to
the process working directory. -/
def envC6 : Env :=
  { isDir := fun p => p == "root6/regA/20230101/sub_RGB"
    isFile := fun _ => false
    listDir := fun _ => []
    openDs := fun _ => { ok := none, recd := none }
    warp := fun _ _ q => rasterAt q
    warpRec := fun _ => none }

/-- A world where opening `x_RGB.tif` fails, next to a second raster that
opens fine. -/
def envC8 : Env :=
  { isDir := fun _ => false
    isFile := fun _ => false
    listDir := fun p => if p == "d8" then ["x_RGB.tif", "y_RGB.tif"] else []
    openDs := fun p =>
      if p == "d8/y_RGB.tif" then { ok := some (rasterAt p), recd := none }
      else { ok := none, recd := none }
    warp := fun _ _ q => rasterAt q
    warpRec := fun _ => none }

/-- The GDAL error recorded by the failed warp in the C10 scenario. -/
def e10 : GdalErr := { level := 3, num := 4, msg := "warp failed" }

/-- A raster whose native code 3857 differs from the destination code. -/
def rasterA3857 : Raster :=
  { path := "r10/reg/20230101/a_RGB.tif", epsg := some 3857,
    xSize := 10, ySize := 8, gt := gtUnit }

/-- A world where warping the first raster records a handler error, and
the second raster has an overview artifact on disk that opens fine. -/
def envC10 : Env :=
  { isDir := fun _ => false
    isFile := fun p => p == "r10/reg/20230101/b_RGB.tif.ovr"
    listDir := fun p => if p == "r10/reg/20230101" then ["a_RGB.tif", "b_RGB.tif"] else []
    openDs := fun p =>
      if p == "r10/reg/20230101/a_RGB.tif" then { ok := some rasterA3857, recd := none }
      else if p == "r10/reg/20230101/b_RGB.tif" then { ok := some (rasterAt p), recd := none }
      else if p == "r10/reg/20230101/b_RGB.tif.ovr" then { ok := some (rasterAt p), recd := none }
      else { ok := none, recd := none }
    warp := fun _ _ q => rasterAt q
    warpRec := fun p => if p == "r10/reg/20230101/a_RGB.tif" then some e10 else none }

/-- A catalog entry dated 2023-01-15 (first of two sharing the date). -/
def lSame1 : LayerInfo :=
  { relPath := "20230115/a_RGB.tif", layerName := "a_RGB",
    spatialRef := "EPSG:4326", xSize := 10, ySize := 8,
    extent := getGDALRasterExtents (rasterAt "root/regA/20230115/a_RGB.tif"),
    date := "2023-01-15" }

/-- A catalog entry dated 2023-01-15 (second of two sharing the date). -/
def lSame2 : LayerInfo :=
  { relPath := "20230115/b_RGB.tif", layerName := "b_RGB",
    spatialRef := "EPSG:4326", xSize := 10, ySize := 8,
    extent := getGDALRasterExtents (rasterAt "root/regA/20230115/b_RGB.tif"),
    date := "2023-01-15" }

/-! ### Claim theorems -/

/-- Claim C4 (confirmed): for every 6-element affine geotransform and all
raster dimensions, width 0 or height 0 included, the extent computation
returns exactly
`[originX, originY + colRot*w + pixelHeight*h, originX + pixelWidth*w + rowRot*h, originY]`,
with exact arithmetic and without failing. -/
theorem getGDALRasterExtents_formula (p : String) (ep : Option Int) (w h : Nat)
    (originX pixelWidth rowRot originY colRot pixelHeight : ℚ) :
    getGDALRasterExtents
        ⟨p, ep, w, h, ⟨originX, pixelWidth, rowRot, originY, colRot, pixelHeight⟩⟩ =
      [originX,
       originY + colRot * w + pixelHeight * h,
       originX + pixelWidth * w + rowRot * h,
       originY] :=
  rfl

/-- Claim C1 (code bug): when every entry of a non-empty catalog shares
the maximum date — already with a single entry, i.e. a region holding one
date directory — the tagging walk indexes past the end of the sorted list
and raises an IndexError instead of completing. -/
theorem tagLatest_all_max_date_raises :
    tagLatest [lSame1] = .error () ∧ tagLatest [lSame1, lSame2] = .error () :=
  ⟨rfl, rfl⟩

/-- Claim C6 (code bug): the directory test of the file-selection
predicate checks `os.path.isdir(fl)` on the bare name instead of the
joined `datePath/fl`, so a sub-directory `sub_RGB` of the date directory
is selected for processing; the `ovr` and `RGB` conjuncts behave as
described. -/
theorem selectFile_dir_check_wrong_path :
    selectFile envC6 "sub_RGB" = true ∧
    envC6.isDir ("root6/regA/20230101" ++ "/" ++ "sub_RGB") = true ∧
    selectFile envC6 "thing.ovr" = false ∧
    selectFile envC6 "plain.tif" = false :=
  ⟨rfl, rfl, rfl, rfl⟩

/-- Claim C9 (code bug): `main` asserts `len(sys.argv) < 3`, so the
correct three-token invocation fails the assertion and prints the usage
message, while an invocation with a missing argument passes the assertion
and dies on an IndexError — the opposite of the claimed behavior. -/
theorem mainProg_assert_inverted :
    mainProg ["LocustMapServerImporter.py", "/data/locust", "https://locust.example/"] =
      .error "usage: python LocustMapServerImporter.py root_dir root_wms_url" ∧
    mainProg ["LocustMapServerImporter.py", "/data/locust"] = .error "IndexError" :=
  ⟨rfl, rfl⟩

/-- Claim C2 (counterexample): region `regA` of `envC2` contains the
malformed date directory `2023AB01`, yet processing the region does not
fail: the catalog is built from the two well-formed date directories, so
the date-parse error did not propagate out of the per-file loop. -/
theorem processRegion_malformed_date_still_builds :
    (processRegion envC2 4326 "root" "regA" initState).2 =
      .ok [ { relPath := "20230115/b_RGB.tif", layerName := "b_RGB_LATEST",
              spatialRef := "EPSG:4326", xSize := 10, ySize := 8,
              extent := getGDALRasterExtents (rasterAt "root/regA/20230115/b_RGB.tif"),
              date := "2023-01-15" },
            { relPath := "20230101/c_RGB.tif", layerName := "c_RGB",
              spatialRef := "EPSG:4326", xSize := 10, ySize := 8,
              extent := getGDALRasterExtents (rasterAt "root/regA/20230101/c_RGB.tif"),
              date := "2023-01-01" } ] :=
  rfl

/-- A file processed under a date directory whose name does not parse as
`YYYYMMDD` never yields a descriptor: the ValueError raised by strptime is
caught by the per-file handler. -/
theorem processFile_badDate (env : Env) (dst : Int) (rp dp date fl : String)
    (st : PState) (hdate : parseYYYYMMDD date = none) :
    (processFile env dst rp dp date fl st).2 = none := by
  simp only [processFile]
  rcases hw : warpToEPSG env dst (dp ++ "/" ++ fl) dp fl st with ⟨st1, res⟩
  cases res with
  | error e => rfl
  | ok odt =>
    dsimp only
    split
    · cases odt <;> simp [hdate]
    · cases odt <;> simp [hdate]

/-- Claim C2 (amended, theorem): a date-parse failure is caught at file
granularity: every file under the malformed date directory yields no
descriptor, and the region walk continues with the remaining date
directories, whose entries alone form the catalog. -/
theorem processDates_malformed_date_skipped (env : Env) (dst : Int)
    (regionPath date : String)
    (hdate : parseYYYYMMDD date = none)
    (hq : (date != "archive" && env.isDir (regionPath ++ "/" ++ date)) = true) :
    (∀ (fls : List String) (st : PState),
        (processFiles env dst regionPath (regionPath ++ "/" ++ date) date st fls).2 = []) ∧
    ∀ (ds : List String) (st : PState),
      (processDates env dst regionPath st (date :: ds)).2 =
        (processDates env dst regionPath
          (processFiles env dst regionPath (regionPath ++ "/" ++ date) date st
            (env.listDir (regionPath ++ "/" ++ date))).1 ds).2 := by
  have hfls : ∀ (fls : List String) (st : PState),
      (processFiles env dst regionPath (regionPath ++ "/" ++ date) date st fls).2 = [] := by
    intro fls
    induction fls with
    | nil => intro st; rfl
    | cons fl rest ih =>
      intro st
      simp only [processFiles]
      split
      · simp [processFile_badDate env dst regionPath (regionPath ++ "/" ++ date) date fl st hdate, ih]
      · exact ih st
  refine ⟨hfls, ?_⟩
  intro ds st
  simp only [processDates, hq, if_true]
  simp [hfls]

/-- Claim C2 (witness): the amended statement instantiated in `envC2` at
the malformed date directory `2023AB01`. -/
theorem processDates_malformed_date_skipped_witness :
    parseYYYYMMDD "2023AB01" = none ∧
    (("2023AB01" != "archive") && envC2.isDir ("root/regA" ++ "/" ++ "2023AB01")) = true ∧
    ((∀ (fls : List String) (st : PState),
        (processFiles envC2 4326 "root/regA" ("root/regA" ++ "/" ++ "2023AB01") "2023AB01" st fls).2 = []) ∧
      ∀ (ds : List String) (st : PState),
        (processDates envC2 4326 "root/regA" st ("2023AB01" :: ds)).2 =
          (processDates envC2 4326 "root/regA"
            (processFiles envC2 4326 "root/regA" ("root/regA" ++ "/" ++ "2023AB01") "2023AB01" st
              (envC2.listDir ("root/regA" ++ "/" ++ "2023AB01"))).1 ds).2) :=
  ⟨by decide, by decide,
    processDates_malformed_date_skipped envC2 4326 "root/regA" "2023AB01" (by decide) (by decide)⟩

/-- Claim C3 (counterexample): in `envC3` the first region `regA` yields
zero layer descriptors; the resulting IndexError aborts the whole batch,
so the sibling region `regB` is never processed and no catalog at all is
exported. -/
theorem processAll_empty_region_aborts_batch :
    processAll envC3 4326 "root3" = ([], true) :=
  rfl

/-- Claim C3 (amended, theorem): a region producing zero layer
descriptors raises an uncaught IndexError at the latest-date lookup, and
the error aborts the region loop: no subsequent sibling region is
processed. -/
theorem processAllGo_empty_region_aborts (env : Env) (dst : Int)
    (root r : String) (rs : List String) (st : PState)
    (acc : List (String × List LayerInfo))
    (hempty : (processDates env dst (root ++ "/" ++ r) st
        (env.listDir (root ++ "/" ++ r))).2 = []) :
    processAllGo env dst root (r :: rs) st acc = (acc.reverse, true) := by
  have h2 : (processRegion env dst root r st).2 = Except.error () := by
    simp only [processRegion]
    rw [hempty]
    rfl
  rcases hpr : processRegion env dst root r st with ⟨st1, res⟩
  rw [hpr] at h2
  simp only [processAllGo, hpr]
  cases res with
  | ok t => exact absurd h2 (by simp)
  | error e => rfl

/-- Claim C3 (witness): the amended statement instantiated in `envC3`. -/
theorem processAllGo_empty_region_aborts_witness :
    (processDates envC3 4326 ("root3" ++ "/" ++ "regA") initState
        (envC3.listDir ("root3" ++ "/" ++ "regA"))).2 = [] ∧
    processAllGo envC3 4326 "root3" ["regA", "regB"] initState [] = ([], true) :=
  ⟨rfl, processAllGo_empty_region_aborts envC3 4326 "root3" "regA" ["regB"] initState [] rfl⟩

/-- Claim C5 (confirmed): when the opened raster already carries the
destination authority code, `_warpToEPSG` returns that very handle and
creates no file on disk (only the handler state may have been touched by
the open itself). -/
theorem warpToEPSG_passthrough (env : Env) (st : PState) (dst : Int)
    (inFile datePath fl : String) (dt : Raster) (r : Option GdalErr)
    (hopen : env.openDs inFile = ⟨some dt, r⟩) (hepsg : dt.epsg = some dst) :
    warpToEPSG env dst inFile datePath fl st =
      ({ st with hstate := applyRec st.hstate r }, .ok (some dt)) ∧
    (warpToEPSG env dst inFile datePath fl st).1.created = st.created ∧
    (warpToEPSG env dst inFile datePath fl st).1.removed = st.removed := by
  have h : warpToEPSG env dst inFile datePath fl st =
      ({ st with hstate := applyRec st.hstate r }, .ok (some dt)) := by
    simp [warpToEPSG, hopen, hepsg]
  exact ⟨h, by rw [h], by rw [h]⟩

/-- Claim C5 (witness): the pass-through instantiated in `envC5`. -/
theorem warpToEPSG_passthrough_witness :
    envC5.openDs "d5/f_RGB.tif" = ⟨some (rasterAt "d5/f_RGB.tif"), none⟩ ∧
    (rasterAt "d5/f_RGB.tif").epsg = some 4326 ∧
    warpToEPSG envC5 4326 "d5/f_RGB.tif" "d5" "f_RGB.tif" initState =
      ({ initState with hstate := applyRec initState.hstate none },
        .ok (some (rasterAt "d5/f_RGB.tif"))) :=
  ⟨rfl, rfl,
    (warpToEPSG_passthrough envC5 initState 4326 "d5/f_RGB.tif" "d5" "f_RGB.tif"
      (rasterAt "d5/f_RGB.tif") none rfl rfl).1⟩

/-- Claim C8 (confirmed): when the open of an input raster fails,
`_warpToEPSG` returns `None`, the per-file handler catches the subsequent
null-handle error, no descriptor is appended for that file, and the loop
continues with the remaining files of the same date directory. -/
theorem processFile_open_fail_skips (env : Env) (dst : Int)
    (rp dp date fl : String) (st : PState) (rest : List String)
    (r : Option GdalErr)
    (hopen : env.openDs (dp ++ "/" ++ fl) = ⟨none, r⟩)
    (hsel : selectFile env fl = true) :
    (processFile env dst rp dp date fl st).2 = none ∧
    processFiles env dst rp dp date st (fl :: rest) =
      processFiles env dst rp dp date (processFile env dst rp dp date fl st).1 rest := by
  have hw : warpToEPSG env dst (dp ++ "/" ++ fl) dp fl st =
      ({ st with hstate := applyRec st.hstate r }, .ok none) := by
    simp [warpToEPSG, hopen]
  have h1 : (processFile env dst rp dp date fl st).2 = none := by
    simp only [processFile, hw]
    split <;> rfl
  refine ⟨h1, ?_⟩
  simp only [processFiles, hsel, if_true]
  simp [h1]

/-- Claim C8 (witness): the open-failure skip instantiated in `envC8`,
where `x_RGB.tif` fails to open and `y_RGB.tif` is the next file. -/
theorem processFile_open_fail_skips_witness :
    envC8.openDs ("d8" ++ "/" ++ "x_RGB.tif") = ⟨none, none⟩ ∧
    selectFile envC8 "x_RGB.tif" = true ∧
    ((processFile envC8 4326 "d8r" "d8" "20230101" "x_RGB.tif" initState).2 = none ∧
      processFiles envC8 4326 "d8r" "d8" "20230101" initState ["x_RGB.tif", "y_RGB.tif"] =
        processFiles envC8 4326 "d8r" "d8" "20230101"
          (processFile envC8 4326 "d8r" "d8" "20230101" "x_RGB.tif" initState).1
          ["y_RGB.tif"]) :=
  ⟨rfl, by decide,
    processFile_open_fail_skips envC8 4326 "d8r" "d8" "20230101" "x_RGB.tif" initState
      ["y_RGB.tif"] none rfl (by decide)⟩

/-- Claim C10 (confirmed): `capture` raises a RuntimeError exactly when an
error was recorded since the last capture, always resets the stored error
to `none` (so each recorded error raises at most once); and because the
handler state is process-wide, the error recorded by the warp of
`a_RGB.tif` makes the capture during the overview validation of
`b_RGB.tif` raise, deleting the `b_RGB.tif.ovr` artifact even though it
opened successfully. -/
theorem errorHandler_capture_shared_state :
    (∀ st : Option GdalErr, (GDALErrorHandler.capture st).2 = st.isSome) ∧
    (∀ st : Option GdalErr, (GDALErrorHandler.capture st).1 = none) ∧
    (∀ st : Option GdalErr,
      (GDALErrorHandler.capture (GDALErrorHandler.capture st).1).2 = false) ∧
    (processFiles envC10 4326 "r10/reg" "r10/reg/20230101" "20230101" initState
        ["a_RGB.tif", "b_RGB.tif"]).1.removed = ["r10/reg/20230101/b_RGB.tif.ovr"] ∧
    (envC10.openDs "r10/reg/20230101/b_RGB.tif.ovr").ok.isSome = true := by
  refine ⟨?_, ?_, ?_, rfl, rfl⟩ <;> intro st <;> cases st <;> rfl

/-- Inserting `x` into `l` with the descending-by-date order places it
before every entry of equal date, so filtering on any fixed date commutes
with the insertion. -/
theorem filter_date_orderedInsert (d : String) (x : LayerInfo) (l : List LayerInfo) :
    (List.orderedInsert dateGE x l).filter (fun a => a.date == d) =
      if x.date == d then x :: l.filter (fun a => a.date == d)
      else l.filter (fun a => a.date == d) := by
  induction l with
  | nil => cases hxx : (x.date == d) <;> simp [List.orderedInsert, List.filter_cons, hxx]
  | cons y ys ih =>
    by_cases hxy : dateGE x y
    · simp [List.orderedInsert, hxy, List.filter_cons]
    · simp only [List.orderedInsert, if_neg hxy]
      cases hy : (y.date == d) with
      | true =>
        have hx : (x.date == d) = false := by
          cases hxx : (x.date == d)
          · rfl
          · exact absurd
              (dateGE_of_date_eq (by rw [beq_iff_eq] at hxx hy; rw [hxx, hy])) hxy
        simp [List.filter_cons, hy, hx, ih]
      | false =>
        simp [List.filter_cons, hy, ih]

/-- Claim C7 (confirmed): the latest-tagging pass sorts the catalog by
date descending with a stable sort: the result is sorted by the
descending date order, is a permutation of the input, and for every date
the subsequence of entries carrying that date is exactly the one of the
input, so entries with equal date keep their original relative order. -/
theorem sortByDateDesc_stable (l : List LayerInfo) (d : String) :
    List.Sorted dateGE (sortByDateDesc l) ∧
    List.Perm (sortByDateDesc l) l ∧
    (sortByDateDesc l).filter (fun a => a.date == d) =
      l.filter (fun a => a.date == d) := by
  refine ⟨List.sorted_insertionSort dateGE l, List.perm_insertionSort dateGE l, ?_⟩
  induction l with
  | nil => rfl
  | cons x xs ih =>
    simp only [sortByDateDesc, List.insertionSort] at *
    rw [filter_date_orderedInsert, ih, List.filter_cons]
